import Mathlib

/-!
# Shallow embedding of `aiosurrealdb/ws.py`

This file embeds the client-side RPC layer of the `aio-surrealdb` library:
the wire envelopes (`Request`, `ResponseSuccess`, `ResponseError`), the
connection state machine of the `Surreal` session object, the
send/receive pipeline (`_send`, `_recv`, `_send_receive`,
`_validate_connection`, `_validate_response`) and every public RPC method
(`use`, `signup`, `signin`, `invalidate`, `authenticate`, `let`, `set`,
`query`, `select`, `create`, `update`, `merge`, `patch`, `delete`, `info`,
`live`, `ping`, `kill`), plus `connect` and `close`.

Modelling conventions:
* JSON payloads are the inductive `JValue`; numbers are integers (no frame
  in this development needs floats).
* The websocket and the `aiohttp.ClientSession` are opaque handles
  (`Option Nat`); what the transport would deliver for a call's single
  `receive_json()` is passed in as an explicit `frame : JValue` argument,
  and the transport operations a call performs are returned as a
  `List TransportOp` trace.
* `uuid.uuid4()` output is passed in as an explicit `rid : String`.
* Python exceptions become the `PyError` type.  The three Surreal
  exception classes are constructed in the source as
  `exception(response.message)`, so the embedded `PyError.exc` carries the
  exception class and that message string only.
* pydantic v1 specifics that the source relies on are embedded directly:
  a `None` value for `Request.params` normalizes to the empty tuple
  (`validate_params`), `ResponseSuccess.result : Any` defaults to `None`
  when the field is missing, and extra fields on a frame are ignored.
  pydantic's lenient coercions (e.g. numeric strings for `code`) are not
  modelled; every frame in this development uses exact field types.
-/

namespace AioSurreal

/-- JSON-like values exchanged over the websocket. -/
inductive JValue where
  | null : JValue
  | bool (b : Bool) : JValue
  | num (n : Int) : JValue
  | str (s : String) : JValue
  | arr (xs : List JValue) : JValue
  | obj (fields : List (String × JValue)) : JValue

/-- First value bound to `key` in an association list (Python `dict` lookup;
the frames in this development have distinct keys). -/
def JValue.lookupField : List (String × JValue) → String → Option JValue
  | [], _ => none
  | (k, v) :: rest, key => if k = key then some v else JValue.lookupField rest key

/-- Python `dict.get`: `some v` when the frame is an object carrying the key,
`none` otherwise. -/
def JValue.get : JValue → String → Option JValue
  | .obj fs, key => JValue.lookupField fs key
  | _, _ => none

def JValue.isObj : JValue → Bool
  | .obj _ => true
  | _ => false

/-- Python truthiness of a JSON value. -/
def JValue.truthy : JValue → Bool
  | .null => false
  | .bool b => b
  | .num n => n != 0
  | .str s => s != ""
  | .arr xs => !xs.isEmpty
  | .obj fs => !fs.isEmpty

/-- Truthiness of `dict.get`'s answer: Python's `None` (absent key) is falsy. -/
def optTruthy : Option JValue → Bool
  | none => false
  | some v => v.truthy

/-- `ConnectionState` enum of the source. -/
inductive ConnectionState where
  | CONNECTING : ConnectionState
  | CONNECTED : ConnectionState
  | DISCONNECTED : ConnectionState
deriving DecidableEq

/-- `Request` pydantic model: `id`, `method`, `params`. -/
structure Request where
  id : String
  method : String
  params : List JValue

/-- `Request.validate_params`: a `None` params value normalizes to the empty
tuple. -/
def validate_params : Option (List JValue) → List JValue
  | none => []
  | some v => v

/-- Constructing a `Request`, running the `params` validator (the source's
`params` field defaults to `None`; callers that omit it pass `none` here). -/
def Request.make (id method : String) (params : Option (List JValue)) : Request :=
  ⟨id, method, validate_params params⟩

/-- `request.dict()` as serialized by `ws.send_json`: the params tuple
renders as a JSON list. -/
def Request.toJson (r : Request) : JValue :=
  .obj [("id", .str r.id), ("method", .str r.method), ("params", .arr r.params)]

/-- `ResponseSuccess` pydantic model. -/
structure ResponseSuccess where
  id : String
  result : JValue

/-- `ResponseError` pydantic model. -/
structure ResponseError where
  code : Int
  message : String

/-- The `ResponseSuccess | ResponseError` union returned by `_recv`. -/
inductive Response where
  | success (s : ResponseSuccess) : Response
  | error (e : ResponseError) : Response

/-- The three exception classes `ws.py` imports from `.exceptions`. -/
inductive ExcType where
  | surrealException : ExcType
  | surrealAuthenticationException : ExcType
  | surrealPermissionException : ExcType
deriving DecidableEq

/-- Python exceptions observable from the embedded code.  `exc` is one of the
Surreal exception classes, constructed with the message string only
(`raise exception(response.message)` — the server's `code` is not passed). -/
inductive PyError where
  | exc (t : ExcType) (message : String) : PyError
  | validationError : PyError
  | attributeError : PyError
  | typeError : PyError
  | connectionError : PyError
  | transportError : PyError
  | assertionError : PyError
deriving DecidableEq

/-- `ResponseError(**response["error"])`: requires a mapping with an integer
`code` and string `message`; `**` of a non-mapping is a `TypeError`, a
missing or mistyped field a pydantic `ValidationError`. -/
def parseResponseError (v : JValue) : Except PyError ResponseError :=
  match v with
  | .obj fs =>
    match JValue.lookupField fs "code", JValue.lookupField fs "message" with
    | some (.num c), some (.str m) => .ok ⟨c, m⟩
    | _, _ => .error .validationError
  | _ => .error .typeError

/-- `ResponseSuccess(**response)`: requires a string `id`; `result : Any`
defaults to `None` when absent; extra fields are ignored. -/
def parseResponseSuccess (v : JValue) : Except PyError ResponseSuccess :=
  match v with
  | .obj fs =>
    match JValue.lookupField fs "id" with
    | some (.str i) => .ok ⟨i, (JValue.lookupField fs "result").getD .null⟩
    | _ => .error .validationError
  | _ => .error .typeError

/-- `_validate_response(response, exception)`: an error response raises
`exception(response.message)`, a success response is returned. -/
def _validate_response (response : Response) (exception : ExcType) :
    Except PyError ResponseSuccess :=
  match response with
  | .error e => .error (.exc exception e.message)
  | .success s => .ok s

/-- The `Surreal` session object's mutable state.  `token` is annotated
`str | None` in the source but assigned `success.result` (an `Any`) at
runtime, hence `Option JValue` here.  `session` and `ws` are opaque
handles to the `aiohttp.ClientSession` and websocket. -/
structure Surreal where
  url : String
  client_state : ConnectionState
  token : Option JValue
  session : Option Nat
  ws : Option Nat

/-- `Surreal.__init__`. -/
def Surreal.init (url : String) : Surreal :=
  ⟨url, .CONNECTING, none, none, none⟩

/-- `connect()`: assigns a fresh `ClientSession` (always succeeds), then
`ws_connect` — `openResult` is `none` when the transport open raises
(`ConnectionError` propagates with the state unchanged) and `some ch` when
it yields a websocket handle. -/
def Surreal.connect (s : Surreal) (sessionHandle : Nat) (openResult : Option Nat) :
    Except PyError Unit × Surreal :=
  let s1 : Surreal := { s with session := some sessionHandle }
  match openResult with
  | none => (.error .connectionError, s1)
  | some ch => (.ok (), { s1 with ws := some ch, client_state := .CONNECTED })

/-- `close()`: awaits `ws.close()` then `session.close()` when the handles
are set; the flags say whether each underlying close succeeds.  The source
has no exception guard, so a raising close propagates and the final state
assignment never runs. -/
def Surreal.close (s : Surreal) (wsCloseOk sessionCloseOk : Bool) :
    Except PyError Unit × Surreal :=
  if s.ws.isSome && !wsCloseOk then (.error .transportError, s)
  else if s.session.isSome && !sessionCloseOk then (.error .transportError, s)
  else (.ok (), { s with client_state := .DISCONNECTED })

/-- Observable transport operations of one call. -/
inductive TransportOp where
  | send_json (payload : JValue) : TransportOp
  | receive_json : TransportOp

/-- `_validate_connection()`: raises
`SurrealException("Not connected to Surreal server.")` unless the state is
`CONNECTED`. -/
def Surreal._validate_connection (s : Surreal) : Except PyError Unit :=
  if s.client_state ≠ .CONNECTED then
    .error (.exc .surrealException "Not connected to Surreal server.")
  else .ok ()

/-- `_send(request)`: validates the connection, asserts the websocket is
present, then sends the serialized request. -/
def Surreal._send (s : Surreal) (request : Request) :
    Except PyError Unit × List TransportOp :=
  match s._validate_connection with
  | .error e => (.error e, [])
  | .ok _ =>
    match s.ws with
    | none => (.error .assertionError, [])
    | some _ => (.ok (), [.send_json request.toJson])

/-- The parsing step of `_recv` on the frame `receive_json()` delivered:
`if response.get("error"): return ResponseError(**response["error"])`
— the error branch is taken when the `error` key is present *and its value
is truthy*; otherwise `ResponseSuccess(**response)`.  A non-mapping frame
has no `.get` (`AttributeError`). -/
def recvParse (frame : JValue) : Except PyError Response :=
  if !frame.isObj then .error .attributeError
  else if optTruthy (frame.get "error") then
    match parseResponseError ((frame.get "error").getD .null) with
    | .error e => .error e
    | .ok r => .ok (.error r)
  else
    match parseResponseSuccess frame with
    | .error e => .error e
    | .ok r => .ok (.success r)

/-- `_recv()`: validates the connection, asserts the websocket, awaits one
frame and parses it. -/
def Surreal._recv (s : Surreal) (frame : JValue) :
    Except PyError Response × List TransportOp :=
  match s._validate_connection with
  | .error e => (.error e, [])
  | .ok _ =>
    match s.ws with
    | none => (.error .assertionError, [])
    | some _ => (recvParse frame, [.receive_json])

/-- `_send_receive(request)`: `_send` then `_recv`. -/
def Surreal._send_receive (s : Surreal) (request : Request) (frame : JValue) :
    Except PyError Response × List TransportOp :=
  match s._send request with
  | (.error e, tr) => (.error e, tr)
  | (.ok _, tr) =>
    match s._recv frame with
    | (r, tr2) => (r, tr ++ tr2)

/-- The repeated body of the result-returning RPC methods:
`response = await self._send_receive(request)`,
`success = _validate_response(response, exception)`,
`return success.result`.  The session is unchanged in every branch; on an
exception the method re-raises it (the session is likewise untouched). -/
def Surreal.rpcResult (s : Surreal) (request : Request) (exception : ExcType)
    (frame : JValue) : Except PyError JValue × Surreal × List TransportOp :=
  match s._send_receive request frame with
  | (.error e, tr) => (.error e, s, tr)
  | (.ok resp, tr) =>
    match _validate_response resp exception with
    | .error e => (.error e, s, tr)
    | .ok success => (.ok success.result, s, tr)

/-- The repeated body of the `None`-returning RPC methods (`use`,
`authenticate`): `_send_receive`, `_validate_response`, implicit
`return None`. -/
def Surreal.rpcUnit (s : Surreal) (request : Request) (exception : ExcType)
    (frame : JValue) : Except PyError JValue × Surreal × List TransportOp :=
  match s._send_receive request frame with
  | (.error e, tr) => (.error e, s, tr)
  | (.ok resp, tr) =>
    match _validate_response resp exception with
    | .error e => (.error e, s, tr)
    | .ok _ => (.ok .null, s, tr)

/-- `use(namespace, database)`: method `"use"`, default exception. -/
def Surreal.use (s : Surreal) (rid ns db : String) (frame : JValue) :
    Except PyError JValue × Surreal × List TransportOp :=
  s.rpcUnit (Request.make rid "use" (some [.str ns, .str db])) .surrealException frame

/-- `signup(vars)`: method `"signup"`, authentication exception; on success
stores `success.result` as the cached token and returns it. -/
def Surreal.signup (s : Surreal) (rid : String) (vars frame : JValue) :
    Except PyError JValue × Surreal × List TransportOp :=
  match s._send_receive (Request.make rid "signup" (some [vars])) frame with
  | (.error e, tr) => (.error e, s, tr)
  | (.ok resp, tr) =>
    match _validate_response resp .surrealAuthenticationException with
    | .error e => (.error e, s, tr)
    | .ok success =>
      (.ok success.result, { s with token := some success.result }, tr)

/-- `signin(vars)`: method `"signin"`, authentication exception; on success
stores `success.result` as the cached token and returns it. -/
def Surreal.signin (s : Surreal) (rid : String) (vars frame : JValue) :
    Except PyError JValue × Surreal × List TransportOp :=
  match s._send_receive (Request.make rid "signin" (some [vars])) frame with
  | (.error e, tr) => (.error e, s, tr)
  | (.ok resp, tr) =>
    match _validate_response resp .surrealAuthenticationException with
    | .error e => (.error e, s, tr)
    | .ok success =>
      (.ok success.result, { s with token := some success.result }, tr)

/-- `invalidate()`: method `"invalidate"` with params omitted,
authentication exception; on success clears the cached token. -/
def Surreal.invalidate (s : Surreal) (rid : String) (frame : JValue) :
    Except PyError JValue × Surreal × List TransportOp :=
  match s._send_receive (Request.make rid "invalidate" none) frame with
  | (.error e, tr) => (.error e, s, tr)
  | (.ok resp, tr) =>
    match _validate_response resp .surrealAuthenticationException with
    | .error e => (.error e, s, tr)
    | .ok _ => (.ok .null, { s with token := none }, tr)

/-- `authenticate(token)`: method `"authenticate"`, authentication
exception; does not touch the cached token. -/
def Surreal.authenticate (s : Surreal) (rid token : String) (frame : JValue) :
    Except PyError JValue × Surreal × List TransportOp :=
  s.rpcUnit (Request.make rid "authenticate" (some [.str token]))
    .surrealAuthenticationException frame

/-- `let(key, value)`: method `"let"`, permission exception, returns
`success.result`. -/
def Surreal.«let» (s : Surreal) (rid key : String) (value frame : JValue) :
    Except PyError JValue × Surreal × List TransportOp :=
  s.rpcResult (Request.make rid "let" (some [.str key, value]))
    .surrealPermissionException frame

/-- `set(key, value)`: alias for `let` — same method `"let"`, same params,
same permission exception, same result handling. -/
def Surreal.set (s : Surreal) (rid key : String) (value frame : JValue) :
    Except PyError JValue × Surreal × List TransportOp :=
  s.rpcResult (Request.make rid "let" (some [.str key, value]))
    .surrealPermissionException frame

/-- `query(sql, vars)`: params `(sql,)` when `vars` is `None`, else
`(sql, vars)`; default exception. -/
def Surreal.query (s : Surreal) (rid sql : String) (vars : Option JValue)
    (frame : JValue) : Except PyError JValue × Surreal × List TransportOp :=
  s.rpcResult
    (Request.make rid "query"
      (some (match vars with | none => [.str sql] | some v => [.str sql, v])))
    .surrealException frame

/-- `select(thing)`: method `"select"`, default exception. -/
def Surreal.select (s : Surreal) (rid thing : String) (frame : JValue) :
    Except PyError JValue × Surreal × List TransportOp :=
  s.rpcResult (Request.make rid "select" (some [.str thing])) .surrealException frame

/-- `create(thing, data)`: params `(thing,)` when `data` is `None`, else
`(thing, data)`; permission exception. -/
def Surreal.create (s : Surreal) (rid thing : String) (data : Option JValue)
    (frame : JValue) : Except PyError JValue × Surreal × List TransportOp :=
  s.rpcResult
    (Request.make rid "create"
      (some (match data with | none => [.str thing] | some d => [.str thing, d])))
    .surrealPermissionException frame

/-- `update(thing, data)`: like `create`, method `"update"`. -/
def Surreal.update (s : Surreal) (rid thing : String) (data : Option JValue)
    (frame : JValue) : Except PyError JValue × Surreal × List TransportOp :=
  s.rpcResult
    (Request.make rid "update"
      (some (match data with | none => [.str thing] | some d => [.str thing, d])))
    .surrealPermissionException frame

/-- `merge(thing, data)`: wire method `"change"`, permission exception. -/
def Surreal.merge (s : Surreal) (rid thing : String) (data : Option JValue)
    (frame : JValue) : Except PyError JValue × Surreal × List TransportOp :=
  s.rpcResult
    (Request.make rid "change"
      (some (match data with | none => [.str thing] | some d => [.str thing, d])))
    .surrealPermissionException frame

/-- `patch(thing, data)`: wire method `"modify"`, permission exception. -/
def Surreal.patch (s : Surreal) (rid thing : String) (data : Option JValue)
    (frame : JValue) : Except PyError JValue × Surreal × List TransportOp :=
  s.rpcResult
    (Request.make rid "modify"
      (some (match data with | none => [.str thing] | some d => [.str thing, d])))
    .surrealPermissionException frame

/-- `delete(thing)`: method `"delete"`, permission exception. -/
def Surreal.delete (s : Surreal) (rid thing : String) (frame : JValue) :
    Except PyError JValue × Surreal × List TransportOp :=
  s.rpcResult (Request.make rid "delete" (some [.str thing]))
    .surrealPermissionException frame

/-- `info()`: method `"info"` with params omitted, default exception. -/
def Surreal.info (s : Surreal) (rid : String) (frame : JValue) :
    Except PyError JValue × Surreal × List TransportOp :=
  s.rpcResult (Request.make rid "info" none) .surrealException frame

/-- `live(table)`: method `"live"`, default exception. -/
def Surreal.live (s : Surreal) (rid table : String) (frame : JValue) :
    Except PyError JValue × Surreal × List TransportOp :=
  s.rpcResult (Request.make rid "live" (some [.str table])) .surrealException frame

/-- `ping()`: method `"ping"` with params omitted, default exception. -/
def Surreal.ping (s : Surreal) (rid : String) (frame : JValue) :
    Except PyError JValue × Surreal × List TransportOp :=
  s.rpcResult (Request.make rid "ping" none) .surrealException frame

/-- `kill(query)`: method `"kill"`, default exception
(`_validate_response(response)` with no second argument). -/
def Surreal.kill (s : Surreal) (rid q : String) (frame : JValue) :
    Except PyError JValue × Surreal × List TransportOp :=
  s.rpcResult (Request.make rid "kill" (some [.str q])) .surrealException frame

/-- The public RPC operations of the session, with their arguments. -/
inductive RpcCall where
  | use (ns db : String) : RpcCall
  | signup (vars : JValue) : RpcCall
  | signin (vars : JValue) : RpcCall
  | invalidate : RpcCall
  | authenticate (token : String) : RpcCall
  | «let» (key : String) (value : JValue) : RpcCall
  | set (key : String) (value : JValue) : RpcCall
  | query (sql : String) (vars : Option JValue) : RpcCall
  | select (thing : String) : RpcCall
  | create (thing : String) (data : Option JValue) : RpcCall
  | update (thing : String) (data : Option JValue) : RpcCall
  | merge (thing : String) (data : Option JValue) : RpcCall
  | patch (thing : String) (data : Option JValue) : RpcCall
  | delete (thing : String) : RpcCall
  | info : RpcCall
  | live (table : String) : RpcCall
  | ping : RpcCall
  | kill (q : String) : RpcCall

/-- Dispatch an `RpcCall` to the corresponding session method;
`rid` is the freshly generated request id, `frame` the inbound frame. -/
def runCall (c : RpcCall) (s : Surreal) (rid : String) (frame : JValue) :
    Except PyError JValue × Surreal × List TransportOp :=
  match c with
  | .use ns db => s.use rid ns db frame
  | .signup vars => s.signup rid vars frame
  | .signin vars => s.signin rid vars frame
  | .invalidate => s.invalidate rid frame
  | .authenticate token => s.authenticate rid token frame
  | .«let» key value => s.«let» rid key value frame
  | .set key value => s.set rid key value frame
  | .query sql vars => s.query rid sql vars frame
  | .select thing => s.select rid thing frame
  | .create thing data => s.create rid thing data frame
  | .update thing data => s.update rid thing data frame
  | .merge thing data => s.merge rid thing data frame
  | .patch thing data => s.patch rid thing data frame
  | .delete thing => s.delete rid thing frame
  | .info => s.info rid frame
  | .live table => s.live rid table frame
  | .ping => s.ping rid frame
  | .kill q => s.kill rid q frame

/-! ## Theorems -/

/-- C1: for every RPC operation (`use`, `signup`, `signin`, `invalidate`,
`authenticate`, `let`, `set`, `query`, `select`, `create`, `update`,
`merge`, `patch`, `delete`, `info`, `live`, `ping`, `kill`), if the
session's state is `CONNECTING` or `DISCONNECTED` the call fails
immediately with `SurrealException "Not connected to Surreal server."`,
the session is unchanged, and the transport is never invoked: the
transport trace is empty (no send, no receive). -/
theorem rpc_call_not_connected (c : RpcCall) (s : Surreal) (rid : String)
    (frame : JValue)
    (h : s.client_state = .CONNECTING ∨ s.client_state = .DISCONNECTED) :
    runCall c s rid frame =
      (.error (.exc .surrealException "Not connected to Surreal server."), s, []) := by
  have hne : s.client_state ≠ .CONNECTED := by
    rcases h with h | h <;> simp [h]
  cases c <;>
    simp [runCall, Surreal.use, Surreal.signup, Surreal.signin, Surreal.invalidate,
      Surreal.authenticate, Surreal.«let», Surreal.set, Surreal.query, Surreal.select,
      Surreal.create, Surreal.update, Surreal.merge, Surreal.patch, Surreal.delete,
      Surreal.info, Surreal.live, Surreal.ping, Surreal.kill, Surreal.rpcResult,
      Surreal.rpcUnit, Surreal._send_receive, Surreal._send, Surreal._validate_connection,
      hne]

/-- Witness for C1: a fresh session (state `CONNECTING`) rejects `ping`
with the not-connected error and an empty transport trace. -/
theorem rpc_call_not_connected_witness :
    ((Surreal.init "ws://db").client_state = .CONNECTING ∨
      (Surreal.init "ws://db").client_state = .DISCONNECTED) ∧
    runCall .ping (Surreal.init "ws://db") "id-1" .null =
      (.error (.exc .surrealException "Not connected to Surreal server."),
        Surreal.init "ws://db", []) :=
  ⟨Or.inl rfl,
    rpc_call_not_connected .ping (Surreal.init "ws://db") "id-1" .null (Or.inl rfl)⟩

/-- The exception class each business method passes to `_validate_response`,
read off the call sites in the source: the authentication exception for
`signup`/`signin`/`invalidate`/`authenticate`, the permission exception for
`let`/`set`/`create`/`update`/`merge`/`patch`/`delete`, and the default
`SurrealException` for the rest — including `kill`, whose call site passes
no second argument. -/
def methodException : RpcCall → ExcType
  | .signup _ => .surrealAuthenticationException
  | .signin _ => .surrealAuthenticationException
  | .invalidate => .surrealAuthenticationException
  | .authenticate _ => .surrealAuthenticationException
  | .«let» _ _ => .surrealPermissionException
  | .set _ _ => .surrealPermissionException
  | .create _ _ => .surrealPermissionException
  | .update _ _ => .surrealPermissionException
  | .merge _ _ => .surrealPermissionException
  | .patch _ _ => .surrealPermissionException
  | .delete _ => .surrealPermissionException
  | _ => .surrealException

/-- C2 counterexample: `kill` on a server error response raises the plain
`SurrealException` (the generic kind), not the permission specialization
the claim assigns it, and the raised error carries only the message — the
server's code `100` appears nowhere in it. -/
theorem kill_error_raises_generic_exception :
    (runCall (.kill "q1") ⟨"ws://db", .CONNECTED, none, some 0, some 0⟩ "id-1"
        (.obj [("error", .obj [("code", .num 100), ("message", .str "denied")])])).1 =
        .error (.exc .surrealException "denied") ∧
    (.exc .surrealException "denied" : PyError) ≠
        .exc .surrealPermissionException "denied" := by
  exact ⟨rfl, by simp⟩

/-- C2 (amended): on a server error frame
`{"error": {"code": c, "message": m}}`, every RPC operation fails with the
exception class its call site passes to `_validate_response` —
authentication for `signup`/`signin`/`authenticate`/`invalidate`,
permission for `let`/`set`/`create`/`update`/`merge`/`patch`/`delete`, the
generic `SurrealException` for the others including `kill` — carrying the
server's message verbatim and nothing else (the integer code is not
attached); the session state is unchanged. -/
theorem rpc_error_classification (c : RpcCall) (s : Surreal) (rid : String)
    (w : Nat) (code : Int) (msg : String)
    (hconn : s.client_state = .CONNECTED) (hws : s.ws = some w) :
    (runCall c s rid
        (.obj [("error", .obj [("code", .num code), ("message", .str msg)])])).1 =
        .error (.exc (methodException c) msg) ∧
    (runCall c s rid
        (.obj [("error", .obj [("code", .num code), ("message", .str msg)])])).2.1 = s := by
  cases c <;>
    simp [runCall, methodException, Surreal.use, Surreal.signup, Surreal.signin,
      Surreal.invalidate, Surreal.authenticate, Surreal.«let», Surreal.set,
      Surreal.query, Surreal.select, Surreal.create, Surreal.update, Surreal.merge,
      Surreal.patch, Surreal.delete, Surreal.info, Surreal.live, Surreal.ping,
      Surreal.kill, Surreal.rpcResult, Surreal.rpcUnit, Surreal._send_receive,
      Surreal._send, Surreal._recv, Surreal._validate_connection, hconn, hws,
      recvParse, JValue.get, JValue.lookupField, JValue.isObj, optTruthy,
      JValue.truthy, parseResponseError, _validate_response]

/-- Witness for C2 (amended): the spec's own example — `signin` against
`{"error": {"code": 100, "message": "bad auth"}}` raises the
authentication exception with message `"bad auth"`. -/
theorem rpc_error_classification_witness :
    (runCall (.signin (.obj [("user", .str "root")]))
        ⟨"ws://db", .CONNECTED, none, some 0, some 0⟩ "id-1"
        (.obj [("error", .obj [("code", .num 100), ("message", .str "bad auth")])])).1 =
      .error (.exc .surrealAuthenticationException "bad auth") :=
  (rpc_error_classification (.signin (.obj [("user", .str "root")]))
    ⟨"ws://db", .CONNECTED, none, some 0, some 0⟩ "id-1" 0 100 "bad auth" rfl rfl).1

/-- C3 counterexample: the frame
`{"id": "1", "result": 7, "error": null}` carries the designated error
field, yet `_recv` parses it as a Success (with the frame's id and result)
because `response.get("error")` tests truthiness, not presence — refuting
"any frame that carries the error field parses to Error". -/
theorem error_field_present_but_falsy_parses_success :
    (JValue.obj [("id", .str "1"), ("result", .num 7), ("error", .null)]).get "error" =
        some .null ∧
    recvParse (.obj [("id", .str "1"), ("result", .num 7), ("error", .null)]) =
      .ok (.success ⟨"1", .num 7⟩) :=
  ⟨rfl, rfl⟩

/-- C3 (amended): an inbound frame (a JSON object) is parsed as an Error
response exactly when its `error` field is present *and Python-truthy*: any
frame whose `error` field holds a truthy value parses to the Error carrying
that field's code and message (`parseResponseError`), and any frame whose
`error` field is absent or falsy parses to Success with the frame's string
id and its `result` value (`None` when absent). -/
theorem recv_frame_classification (fs : List (String × JValue)) :
    (∀ err : JValue, JValue.lookupField fs "error" = some err → err.truthy = true →
        recvParse (.obj fs) = Except.map Response.error (parseResponseError err)) ∧
    (optTruthy ((JValue.obj fs).get "error") = false →
        ∀ i : String, JValue.lookupField fs "id" = some (.str i) →
        recvParse (.obj fs) =
          .ok (.success ⟨i, (JValue.lookupField fs "result").getD .null⟩)) := by
  constructor
  · intro err herr htr
    simp [recvParse, JValue.isObj, JValue.get, herr, optTruthy, htr]
    cases parseResponseError err <;> simp [Except.map]
  · intro hfal i hid
    simp [JValue.get] at hfal
    simp [recvParse, JValue.isObj, JValue.get, hfal, parseResponseSuccess, hid]

/-- Witness for C3 (amended): a truthy-error frame parses to the Error with
its code and message, and an error-free frame parses to Success with the
frame's id and result. -/
theorem recv_frame_classification_witness :
    recvParse (.obj [("error", .obj [("code", .num 100), ("message", .str "oops")])]) =
      Except.map Response.error
        (parseResponseError (.obj [("code", .num 100), ("message", .str "oops")])) ∧
    recvParse (.obj [("id", .str "7"), ("result", .bool true)]) =
      .ok (.success ⟨"7", .bool true⟩) := by
  refine ⟨(recv_frame_classification
      [("error", .obj [("code", .num 100), ("message", .str "oops")])]).1
      (.obj [("code", .num 100), ("message", .str "oops")]) rfl rfl, ?_⟩
  have h := (recv_frame_classification [("id", .str "7"), ("result", .bool true)]).2
    rfl "7" rfl
  simpa using h

/-- C4 counterexample: on a connected session whose websocket `close()`
raises, the session's `close()` propagates the error (the source has no
exception guard) and the state stays `CONNECTED` — refuting both "close()
never raises" and "unconditionally moves the state to Disconnected". -/
theorem close_propagates_transport_failure :
    Surreal.close ⟨"ws://db", .CONNECTED, none, some 0, some 1⟩ false true =
      (.error .transportError, ⟨"ws://db", .CONNECTED, none, some 0, some 1⟩) :=
  rfl

/-- C4 (amended): whenever the underlying transport closes do not raise,
`close()` raises nothing and unconditionally moves the state to
`DISCONNECTED`; in particular calling `close()` twice in sequence (with
non-raising teardown) raises nothing and leaves the state `DISCONNECTED`
after each call.  (When an underlying close raises, the error propagates
and the state is left unchanged.) -/
theorem close_ok_teardown_idempotent (s : Surreal) :
    (s.close true true).1 = .ok () ∧
    (s.close true true).2.client_state = .DISCONNECTED ∧
    ((s.close true true).2.close true true).1 = .ok () ∧
    ((s.close true true).2.close true true).2.client_state = .DISCONNECTED := by
  simp [Surreal.close]

/-- C5 counterexample: a session taken to `DISCONNECTED` by `close()` is
revived by a subsequent `connect()` whose transport open succeeds — the
final state is `CONNECTED`, refuting "a subsequent connect() does not bring
the session back to the Connected state". -/
theorem reconnect_after_close_succeeds :
    ((((Surreal.init "ws://db").connect 0 (some 1)).2.close true true).2.client_state =
        ConnectionState.DISCONNECTED) ∧
    (((((Surreal.init "ws://db").connect 0 (some 1)).2.close true true).2.connect 2
        (some 3)).1 = .ok ()) ∧
    (((((Surreal.init "ws://db").connect 0 (some 1)).2.close true true).2.connect 2
        (some 3)).2.client_state = ConnectionState.CONNECTED) :=
  ⟨rfl, rfl, rfl⟩

/-- C5 (amended): `connect()` performs no state validation at all — invoked
on a session in *any* state (including `DISCONNECTED` after `close()`),
a `connect()` whose transport open succeeds replaces the session and
websocket handles and moves the state to `CONNECTED`; the code has a
`Disconnected → Connected` transition. -/
theorem connect_unconditional (s : Surreal) (sh ch : Nat) :
    s.connect sh (some ch) =
      (.ok (),
        { s with session := some sh, ws := some ch, client_state := .CONNECTED }) :=
  rfl

/-- C6: in the `CONNECTED` state, a `select` whose inbound frame is
`{"id": X, "result": R}` returns exactly `R` — for *any* JSON value `R`
(null, number, string, object, list, or nested combination) — leaves the
session unchanged, and performs exactly one send and one receive. -/
theorem select_returns_result_unchanged (s : Surreal) (w : Nat)
    (rid thing x : String) (r : JValue)
    (hconn : s.client_state = .CONNECTED) (hws : s.ws = some w) :
    s.select rid thing (.obj [("id", .str x), ("result", r)]) =
      (.ok r, s,
        [.send_json (Request.make rid "select" (some [.str thing])).toJson,
          .receive_json]) := by
  simp [Surreal.select, Surreal.rpcResult, Surreal._send_receive, Surreal._send,
    Surreal._recv, Surreal._validate_connection, hconn, hws, recvParse,
    JValue.isObj, JValue.get, JValue.lookupField, optTruthy, parseResponseSuccess,
    _validate_response]

/-- Witness for C6: a connected session's `select` returns a nested
list/object result unchanged. -/
theorem select_returns_result_unchanged_witness :
    Surreal.select ⟨"ws://db", .CONNECTED, none, some 0, some 1⟩ "id-1" "person"
        (.obj [("id", .str "id-1"),
          ("result", .arr [.obj [("name", .str "Tobie")], .null, .num 3])]) =
      (.ok (.arr [.obj [("name", .str "Tobie")], .null, .num 3]),
        ⟨"ws://db", .CONNECTED, none, some 0, some 1⟩,
        [.send_json (Request.make "id-1" "select" (some [.str "person"])).toJson,
          .receive_json]) :=
  select_returns_result_unchanged ⟨"ws://db", .CONNECTED, none, some 0, some 1⟩ 1
    "id-1" "person" "id-1" (.arr [.obj [("name", .str "Tobie")], .null, .num 3])
    rfl rfl

/-- The transport trace of a result-returning RPC method in the connected
state is always exactly one send of the serialized request followed by one
receive, whatever the inbound frame. -/
theorem rpcResult_trace (s : Surreal) (w : Nat) (request : Request)
    (exception : ExcType) (frame : JValue)
    (hconn : s.client_state = .CONNECTED) (hws : s.ws = some w) :
    (s.rpcResult request exception frame).2.2 =
      [.send_json request.toJson, .receive_json] := by
  have hbase : s._send_receive request frame =
      (recvParse frame, [.send_json request.toJson, .receive_json]) := by
    simp [Surreal._send_receive, Surreal._send, Surreal._recv,
      Surreal._validate_connection, hconn, hws]
  cases hR : recvParse frame with
  | error e => simp [Surreal.rpcResult, hbase, hR]
  | ok resp =>
    cases resp with
    | success s0 => simp [Surreal.rpcResult, hbase, hR, _validate_response]
    | error e0 => simp [Surreal.rpcResult, hbase, hR, _validate_response]

/-- C7: a `Request` built with absent (`None`) params normalizes them to
the empty tuple, and `ping` in the `CONNECTED` state serializes and sends
`{"id": <rid>, "method": "ping", "params": []}` — the outbound envelope
always carries a params list. -/
theorem ping_sends_params_list (s : Surreal) (w : Nat) (rid : String)
    (frame : JValue)
    (hconn : s.client_state = .CONNECTED) (hws : s.ws = some w) :
    validate_params none = [] ∧
    (s.ping rid frame).2.2 =
      [.send_json (.obj [("id", .str rid), ("method", .str "ping"),
        ("params", .arr [])]), .receive_json] := by
  refine ⟨rfl, ?_⟩
  have h := rpcResult_trace s w (Request.make rid "ping" none) .surrealException
    frame hconn hws
  simpa [Surreal.ping, Request.make, Request.toJson, validate_params] using h

/-- Witness for C7: a concrete connected session's `ping` sends exactly
`{"id": "id-1", "method": "ping", "params": []}` before receiving. -/
theorem ping_sends_params_list_witness :
    validate_params none = [] ∧
    (Surreal.ping ⟨"ws://db", .CONNECTED, none, some 0, some 1⟩ "id-1"
        (.obj [("id", .str "id-1"), ("result", .bool true)])).2.2 =
      [.send_json (.obj [("id", .str "id-1"), ("method", .str "ping"),
        ("params", .arr [])]), .receive_json] :=
  ping_sends_params_list ⟨"ws://db", .CONNECTED, none, some 0, some 1⟩ 1 "id-1"
    (.obj [("id", .str "id-1"), ("result", .bool true)]) rfl rfl

/-- A result-returning RPC method leaves the session record unchanged in
every branch. -/
theorem rpcResult_session (s : Surreal) (request : Request) (exception : ExcType)
    (frame : JValue) : (s.rpcResult request exception frame).2.1 = s := by
  cases h : s._send_receive request frame with
  | mk r0 tr =>
    cases r0 with
    | error e => simp [Surreal.rpcResult, h]
    | ok resp =>
      cases hv : _validate_response resp exception with
      | error e => simp [Surreal.rpcResult, h, hv]
      | ok succ => simp [Surreal.rpcResult, h, hv]

/-- A `None`-returning RPC method leaves the session record unchanged in
every branch. -/
theorem rpcUnit_session (s : Surreal) (request : Request) (exception : ExcType)
    (frame : JValue) : (s.rpcUnit request exception frame).2.1 = s := by
  cases h : s._send_receive request frame with
  | mk r0 tr =>
    cases r0 with
    | error e => simp [Surreal.rpcUnit, h]
    | ok resp =>
      cases hv : _validate_response resp exception with
      | error e => simp [Surreal.rpcUnit, h, hv]
      | ok succ => simp [Surreal.rpcUnit, h, hv]

/-- The calls whose handler assigns the cached token (`signup`, `signin`
and `invalidate`; `authenticate` does not touch it). -/
def writesToken : RpcCall → Bool
  | .signup _ => true
  | .signin _ => true
  | .invalidate => true
  | _ => false

/-- A call that does not write the token leaves the whole session record
unchanged. -/
theorem runCall_session_of_not_writesToken (c : RpcCall) (s : Surreal)
    (rid : String) (frame : JValue) (h : writesToken c = false) :
    (runCall c s rid frame).2.1 = s := by
  cases c with
  | use ns db => exact rpcUnit_session _ _ _ _
  | signup vars => simp [writesToken] at h
  | signin vars => simp [writesToken] at h
  | invalidate => simp [writesToken] at h
  | authenticate t => exact rpcUnit_session _ _ _ _
  | «let» k v => exact rpcResult_session _ _ _ _
  | set k v => exact rpcResult_session _ _ _ _
  | query sql vars => exact rpcResult_session _ _ _ _
  | select t => exact rpcResult_session _ _ _ _
  | create t d => exact rpcResult_session _ _ _ _
  | update t d => exact rpcResult_session _ _ _ _
  | merge t d => exact rpcResult_session _ _ _ _
  | patch t d => exact rpcResult_session _ _ _ _
  | delete t => exact rpcResult_session _ _ _ _
  | info => exact rpcResult_session _ _ _ _
  | live t => exact rpcResult_session _ _ _ _
  | ping => exact rpcResult_session _ _ _ _
  | kill q => exact rpcResult_session _ _ _ _

/-- `signup` leaves the token unchanged on a raised error and stores the
success result as the token on success. -/
theorem signup_token_cases (s : Surreal) (rid : String) (vars frame : JValue) :
    (∀ e : PyError, (s.signup rid vars frame).1 = .error e →
        (s.signup rid vars frame).2.1.token = s.token) ∧
    (∀ r : JValue, (s.signup rid vars frame).1 = .ok r →
        (s.signup rid vars frame).2.1.token = some r) := by
  cases h : s._send_receive (Request.make rid "signup" (some [vars])) frame with
  | mk r0 tr =>
    cases r0 with
    | error e =>
      refine ⟨fun x hx => ?_, fun r hr => ?_⟩
      · simp [Surreal.signup, h]
      · simp [Surreal.signup, h] at hr
    | ok resp =>
      cases resp with
      | error e0 =>
        refine ⟨fun x hx => ?_, fun r hr => ?_⟩
        · simp [Surreal.signup, h, _validate_response]
        · simp [Surreal.signup, h, _validate_response] at hr
      | success s0 =>
        refine ⟨fun x hx => ?_, fun r hr => ?_⟩
        · simp [Surreal.signup, h, _validate_response] at hx
        · simp [Surreal.signup, h, _validate_response] at hr ⊢
          exact hr

/-- `signin` leaves the token unchanged on a raised error and stores the
success result as the token on success. -/
theorem signin_token_cases (s : Surreal) (rid : String) (vars frame : JValue) :
    (∀ e : PyError, (s.signin rid vars frame).1 = .error e →
        (s.signin rid vars frame).2.1.token = s.token) ∧
    (∀ r : JValue, (s.signin rid vars frame).1 = .ok r →
        (s.signin rid vars frame).2.1.token = some r) := by
  cases h : s._send_receive (Request.make rid "signin" (some [vars])) frame with
  | mk r0 tr =>
    cases r0 with
    | error e =>
      refine ⟨fun x hx => ?_, fun r hr => ?_⟩
      · simp [Surreal.signin, h]
      · simp [Surreal.signin, h] at hr
    | ok resp =>
      cases resp with
      | error e0 =>
        refine ⟨fun x hx => ?_, fun r hr => ?_⟩
        · simp [Surreal.signin, h, _validate_response]
        · simp [Surreal.signin, h, _validate_response] at hr
      | success s0 =>
        refine ⟨fun x hx => ?_, fun r hr => ?_⟩
        · simp [Surreal.signin, h, _validate_response] at hx
        · simp [Surreal.signin, h, _validate_response] at hr ⊢
          exact hr

/-- `invalidate` leaves the token unchanged on a raised error and clears it
to `None` on success. -/
theorem invalidate_token_cases (s : Surreal) (rid : String) (frame : JValue) :
    (∀ e : PyError, (s.invalidate rid frame).1 = .error e →
        (s.invalidate rid frame).2.1.token = s.token) ∧
    (∀ r : JValue, (s.invalidate rid frame).1 = .ok r →
        (s.invalidate rid frame).2.1.token = none) := by
  cases h : s._send_receive (Request.make rid "invalidate" none) frame with
  | mk r0 tr =>
    cases r0 with
    | error e =>
      refine ⟨fun x hx => ?_, fun r hr => ?_⟩
      · simp [Surreal.invalidate, h]
      · simp [Surreal.invalidate, h] at hr
    | ok resp =>
      cases resp with
      | error e0 =>
        refine ⟨fun x hx => ?_, fun r hr => ?_⟩
        · simp [Surreal.invalidate, h, _validate_response]
        · simp [Surreal.invalidate, h, _validate_response] at hr
      | success s0 =>
        refine ⟨fun x hx => ?_, fun r hr => ?_⟩
        · simp [Surreal.invalidate, h, _validate_response] at hx
        · simp [Surreal.invalidate, h, _validate_response]

/-- C8: the cached token is written only by the auth flow — a call other
than `signup`/`signin`/`invalidate` leaves the token unchanged; every call
that raises (including failed auth calls) leaves it unchanged; a successful
`signup` or `signin` sets it to the success result; a successful
`invalidate` clears it to `None`; and `close()` leaves it unchanged. -/
theorem token_written_only_by_auth_flow (c : RpcCall) (s : Surreal) (rid : String)
    (frame : JValue) (a b : Bool) :
    (writesToken c = false → (runCall c s rid frame).2.1.token = s.token) ∧
    (∀ e : PyError, (runCall c s rid frame).1 = .error e →
        (runCall c s rid frame).2.1.token = s.token) ∧
    (∀ vars r : JValue, (c = .signup vars ∨ c = .signin vars) →
        (runCall c s rid frame).1 = .ok r →
        (runCall c s rid frame).2.1.token = some r) ∧
    (c = .invalidate → ∀ r : JValue, (runCall c s rid frame).1 = .ok r →
        (runCall c s rid frame).2.1.token = none) ∧
    (s.close a b).2.token = s.token := by
  have hclose : (s.close a b).2.token = s.token := by
    unfold Surreal.close
    split
    · rfl
    · split <;> rfl
  refine ⟨?_, ?_, ?_, ?_, hclose⟩
  · intro h
    exact congrArg Surreal.token (runCall_session_of_not_writesToken c s rid frame h)
  · intro e he
    cases c with
    | signup vars => exact (signup_token_cases s rid vars frame).1 e he
    | signin vars => exact (signin_token_cases s rid vars frame).1 e he
    | invalidate => exact (invalidate_token_cases s rid frame).1 e he
    | use ns db =>
      exact congrArg Surreal.token
        (runCall_session_of_not_writesToken (.use ns db) s rid frame rfl)
    | authenticate t =>
      exact congrArg Surreal.token
        (runCall_session_of_not_writesToken (.authenticate t) s rid frame rfl)
    | «let» k v =>
      exact congrArg Surreal.token
        (runCall_session_of_not_writesToken (.«let» k v) s rid frame rfl)
    | set k v =>
      exact congrArg Surreal.token
        (runCall_session_of_not_writesToken (.set k v) s rid frame rfl)
    | query sql vars =>
      exact congrArg Surreal.token
        (runCall_session_of_not_writesToken (.query sql vars) s rid frame rfl)
    | select t =>
      exact congrArg Surreal.token
        (runCall_session_of_not_writesToken (.select t) s rid frame rfl)
    | create t d =>
      exact congrArg Surreal.token
        (runCall_session_of_not_writesToken (.create t d) s rid frame rfl)
    | update t d =>
      exact congrArg Surreal.token
        (runCall_session_of_not_writesToken (.update t d) s rid frame rfl)
    | merge t d =>
      exact congrArg Surreal.token
        (runCall_session_of_not_writesToken (.merge t d) s rid frame rfl)
    | patch t d =>
      exact congrArg Surreal.token
        (runCall_session_of_not_writesToken (.patch t d) s rid frame rfl)
    | delete t =>
      exact congrArg Surreal.token
        (runCall_session_of_not_writesToken (.delete t) s rid frame rfl)
    | info =>
      exact congrArg Surreal.token
        (runCall_session_of_not_writesToken .info s rid frame rfl)
    | live t =>
      exact congrArg Surreal.token
        (runCall_session_of_not_writesToken (.live t) s rid frame rfl)
    | ping =>
      exact congrArg Surreal.token
        (runCall_session_of_not_writesToken .ping s rid frame rfl)
    | kill q =>
      exact congrArg Surreal.token
        (runCall_session_of_not_writesToken (.kill q) s rid frame rfl)
  · intro vars r hv hr
    rcases hv with hv | hv <;> subst hv
    · exact (signup_token_cases s rid vars frame).2 r hr
    · exact (signin_token_cases s rid vars frame).2 r hr
  · intro hv r hr
    subst hv
    exact (invalidate_token_cases s rid frame).2 r hr

/-- Witness for C8: a successful concrete `signin` stores the returned
token, and a concrete `ping` (a non-auth call) leaves the fresh session's
`None` token in place. -/
theorem token_written_only_by_auth_flow_witness :
    (runCall (.signin (.obj [("user", .str "root")]))
        ⟨"ws://db", .CONNECTED, none, some 0, some 1⟩ "id-1"
        (.obj [("id", .str "id-1"), ("result", .str "tok123")])).2.1.token =
      some (.str "tok123") ∧
    (runCall .ping ⟨"ws://db", .CONNECTED, none, some 0, some 1⟩ "id-2"
        (.obj [("id", .str "id-2"), ("result", .bool true)])).2.1.token = none := by
  constructor
  · exact (token_written_only_by_auth_flow (.signin (.obj [("user", .str "root")]))
      ⟨"ws://db", .CONNECTED, none, some 0, some 1⟩ "id-1"
      (.obj [("id", .str "id-1"), ("result", .str "tok123")]) true true).2.2.1
      (.obj [("user", .str "root")]) (.str "tok123") (Or.inr rfl) rfl
  · exact (token_written_only_by_auth_flow .ping
      ⟨"ws://db", .CONNECTED, none, some 0, some 1⟩ "id-2"
      (.obj [("id", .str "id-2"), ("result", .bool true)]) true true).1 rfl

/-- C9 counterexample: after a `connect()` that acquired websocket handle
`1` and session handle `0`, a successful `close()` leaves both references
in place — the session still holds the channel it acquired, refuting "once
close() returns, the session no longer holds the channel". -/
theorem close_keeps_acquired_channel :
    ((((Surreal.init "ws://db").connect 0 (some 1)).2.close true true).2.ws = some 1) ∧
    ((((Surreal.init "ws://db").connect 0 (some 1)).2.close true true).2.session =
      some 0) :=
  ⟨rfl, rfl⟩

/-- C9 (amended): `close()` never assigns `ws` or `session` — the session
retains its transport references in every branch (only `client_state`
changes, and only when the underlying teardown succeeds). -/
theorem close_preserves_transport_refs (s : Surreal) (a b : Bool) :
    (s.close a b).2.ws = s.ws ∧ (s.close a b).2.session = s.session := by
  unfold Surreal.close
  split
  · exact ⟨rfl, rfl⟩
  · split
    · exact ⟨rfl, rfl⟩
    · exact ⟨rfl, rfl⟩

/-- C10: `set(key, value)` is an exact alias of `let(key, value)`: for
every session state, generated id, key, value and inbound frame, the two
calls agree on the outcome (value or raised error), the resulting session
state, and the transport trace — both send method `"let"` with params
`(key, value)` and classify errors with the permission exception. -/
theorem set_is_alias_of_let (s : Surreal) (rid key : String) (value frame : JValue) :
    s.set rid key value frame = s.«let» rid key value frame :=
  rfl

end AioSurreal
